import Mathlib

/-!
Shallow embedding of `src/app.py` (ESP32-CAM Motion Detection Server) and
verification of the specification claims about it.

Conventions of the embedding:
* Python dictionaries parsed from JSON are modelled by structures whose
  fields are `Option`-valued (a missing key is `none`); `dict.get(k, d)`
  becomes `Option.getD`.  `YoloResult.extraKeys` counts the keys of the
  parsed object other than the two the code ever reads or writes, so that
  Python dict truthiness (non-emptiness) is expressible.
* Floating point confidences are modelled by `ℚ`; the code only compares
  them and formats them, so no floating-point rounding behaviour matters.
* Network, PIL and SMTP effects are oracles supplied as explicit
  parameters: each external call's outcome is a value of an inductive
  type, and raising an exception at a call site is one of its outcomes.
* `requests.post` per-endpoint outcomes are `AttemptOutcome`; the body of
  the `for url in urls_to_try` loop in `send_to_yolo` becomes the
  recursion `send_to_yolo_run`, which also records the list of URLs that
  were actually attempted, in order.
-/

namespace App

/-- One detection entry of the YOLO response (`detection` dict in the code).
Source keys: `class` (modelled as `cls`, `class` is a Lean keyword),
`confidence`, `bbox`.  Each key may be absent.  `bbox` holds the numeric
coordinates after Python `int(...)` conversion. -/
structure Detection where
  cls : Option String
  confidence : Option ℚ
  bbox : List Int
deriving Repr, DecidableEq

/-- The parsed JSON object returned by a YOLO endpoint (`yolo_result` dict).
`detections` and `all_detections` are the two keys the code reads/writes;
`extraKeys` counts any other keys of the object (needed only for Python
dict truthiness `if yolo_result:`). -/
structure YoloResult where
  detections : Option (List Detection)
  all_detections : Option (List Detection)
  extraKeys : Nat
deriving Repr, DecidableEq

/-- Python truthiness of the `yolo_result` dict: a dict is truthy iff it is
non-empty, i.e. iff it has at least one key. -/
def YoloResult.truthy (r : YoloResult) : Bool :=
  r.detections.isSome || r.all_detections.isSome || r.extraKeys != 0

/-- `detection.get('confidence', 0)` (app.py lines 140, 228, 366, 378). -/
def confOf (d : Detection) : ℚ := d.confidence.getD 0

/-- The (class, confidence) data of one body/label line:
`detection.get('class', 'Unknown')` and `detection.get('confidence', 0)`. -/
def detEntry (d : Detection) : String × ℚ := (d.cls.getD "Unknown", confOf d)

/-- `filter_detections` (app.py lines 134-148).  The Python function both
returns the filtered list and mutates its dict argument by storing the raw
list under the key `all_detections`; the embedding returns the pair
(returned list, dict after the call). -/
def filter_detections (threshold : ℚ) (r : YoloResult) : List Detection × YoloResult :=
  let all_detections := r.detections.getD []
  let filtered := all_detections.filter (fun d => decide (confOf d ≥ threshold))
  (filtered, { r with all_detections := some all_detections })

/-- The low-confidence list built in `send_email_notification`
(app.py lines 377-378): `[d for d in yolo_result.get('all_detections', [])
if d.get('confidence', 0) < CONFIDENCE_THRESHOLD]`. -/
def low_conf_detections (threshold : ℚ) (r : YoloResult) : List Detection :=
  (r.all_detections.getD []).filter (fun d => decide (confOf d < threshold))

/-- Outcome of one `requests.post(url, ...)` attempt inside `send_to_yolo`
(app.py lines 163-185).  `httpResponse code body` is an HTTP response with
the given status code whose `response.json()` parse gives `some r`, or
`none` if `.json()` raises.  The other constructors are the exceptions the
code catches: `requests.exceptions.Timeout`, `ConnectionError`,
`RequestException`, and any other `Exception`. -/
inductive AttemptOutcome where
  | timeout
  | connectionError
  | requestError
  | otherError
  | httpResponse (code : Nat) (body : Option YoloResult)
deriving Repr, DecidableEq

/-- The result `send_to_yolo` extracts from one attempt: `some r` exactly
when `response.status_code == 200` and `response.json()` parses to `r`
(app.py lines 165-170); every other outcome makes the loop move on. -/
def parseSuccess : AttemptOutcome → Option YoloResult
  | .httpResponse code body => if code = 200 then body else none
  | _ => none

/-- Boolean form of "this attempt makes the loop try the next URL". -/
def triesNext (o : AttemptOutcome) : Bool :=
  match o with
  | .httpResponse code body => code != 200 || body.isNone
  | _ => true

/-- The hardcoded backup endpoint list `YOLO_BACKUP_URLS` (app.py 28-32). -/
def YOLO_BACKUP_URLS : List String :=
  ["http://127.0.0.1:5001/detect", "http://localhost:5001/detect",
   "http://127.0.0.1:8000/detect"]

/-- `urls_to_try = [url for url in [YOLO_API_URL] + YOLO_BACKUP_URLS if url]`
(app.py line 152).  Configured entries are `Option String` because
`os.environ.get` yields `None` when unset; Python truthiness of a string
also drops the empty string. -/
def urls_to_try (configured : List (Option String)) : List String :=
  configured.filterMap fun u =>
    match u with
    | none => none
    | some s => if s = "" then none else some s

/-- The `for url in urls_to_try` loop of `send_to_yolo` (app.py 154-188),
run against the list of URLs paired with each attempt's outcome.  Returns
the Python return value (`some r` on first success, `none` — the Python
`None` at line 188 — when every attempt fails) together with the list of
URLs actually attempted, in order. -/
def send_to_yolo_run : List (String × AttemptOutcome) → Option YoloResult × List String
  | [] => (none, [])
  | (u, o) :: rest =>
    match parseSuccess o with
    | some r => (some r, [u])
    | none =>
      let p := send_to_yolo_run rest
      (p.1, u :: p.2)

/-- `send_to_yolo(image_data)` (app.py 150-188) with the primary URL from
the environment and the per-attempt outcomes supplied as an oracle list
aligned with the URLs to try. -/
def send_to_yolo (primary : Option String) (outs : List AttemptOutcome) :
    Option YoloResult × List String :=
  send_to_yolo_run ((urls_to_try (primary :: YOLO_BACKUP_URLS.map some)).zip outs)

/-! ### Annotation renderer (`process_yolo_results`, app.py 190-297) -/

/-- `max(0, min(v, bound))` — the per-coordinate clamping of
app.py lines 241-244. -/
def clamp (v : Int) (bound : Nat) : Int := max 0 (min v (bound : Int))

/-- One PIL drawing call issued while annotating, with its arguments.
`boxRect` is the detection outline (line 247), `labelBg`/`labelText` the
label plate and text (263-267), `summaryBg`/`summaryText` the bottom
summary plate and line (283-285).  Text is kept structured: the label
string rendered is the f-string of (class, confidence) at line 250 and the
summary is the f-string of the detection count and timestamp at line 271. -/
inductive DrawCmd where
  | boxRect (x1 y1 x2 y2 : Int) (color : String)
  | labelBg (x1 y1 x2 y2 : Int) (color : String)
  | labelText (x y : Int) (cls : String) (conf : ℚ)
  | summaryBg (x1 y1 x2 y2 : Int)
  | summaryText (x y : Int) (count : Nat)
deriving Repr, DecidableEq

/-- Oracle for the PIL effects inside `process_yolo_results`.  A `none` /
`false` value at a step models that PIL call raising, which the
function-level `try/except` (app.py 192, 295-297) catches. -/
structure RenderEnv where
  /-- `Image.open(io.BytesIO(image_data))`: `some (w, h)` on success. -/
  decode : Option (Nat × Nat)
  /-- whether the font-selection block (198-216) completes (its own
  `try/except` falls back to `ImageFont.load_default()`; only that
  fallback itself raising makes this `false`). -/
  fontOk : Bool
  /-- text extent of the label f-string for (class, confidence), from
  `draw.textbbox` / `draw.textsize` (253-259). -/
  textSize : String → ℚ → Nat × Nat
  /-- text extent of the summary line for a detection count (275-280). -/
  summarySize : Nat → Nat × Nat
  /-- whether a PIL drawing call succeeds (`draw.rectangle`/`draw.text`
  may raise, e.g. some Pillow versions reject unordered rectangle
  coordinates); a failing call is caught by the outer `except`. -/
  cmdOk : DrawCmd → Bool
  /-- `image.save(..., format='JPEG', quality=95)` (288-290): the encoded
  bytes for the image with the given drawing applied, `none` if it raises. -/
  encode : List DrawCmd → Option (List Nat)

/-- The fixed palette (app.py 219). -/
def colors : List String :=
  ["red", "blue", "green", "yellow", "purple", "orange", "cyan", "magenta"]

/-- The `class_colors` assignment (app.py 231-234): look the class up in
the association list built so far, otherwise assign
`colors[len(class_colors) % len(colors)]`.  Returns the updated
association list and the color used. -/
def colorFor (assigned : List (String × String)) (cls : String) :
    List (String × String) × String :=
  match assigned.find? (fun p => p.1 == cls) with
  | some p => (assigned, p.2)
  | none =>
    let c := (colors.getD (assigned.length % colors.length) "red")
    (assigned ++ [(cls, c)], c)

/-- The drawing performed for one detection (app.py 236-267): nothing at
all unless `bbox` has exactly 4 elements; otherwise the clamped outline
rectangle, the label background plate and the label text. -/
def detectionCmds (env : RenderEnv) (w h : Nat) (color : String) (cls : String)
    (conf : ℚ) (bbox : List Int) : List DrawCmd :=
  match bbox with
  | [bx1, by1, bx2, by2] =>
    let x1 := clamp bx1 w
    let y1 := clamp by1 h
    let x2 := clamp bx2 w
    let y2 := clamp by2 h
    let ts := env.textSize cls conf
    let text_y : Int := max 0 (y1 - (ts.2 : Int) - 5)
    [ .boxRect x1 y1 x2 y2 color,
      .labelBg x1 text_y (x1 + (ts.1 : Int) + 10) (text_y + (ts.2 : Int) + 5) color,
      .labelText (x1 + 5) (text_y + 2) cls conf ]
  | _ => []

/-- The `for i, detection in enumerate(detections)` loop (app.py 225-267),
threading the `class_colors` assignment (colors are assigned at line 232
before the bbox length check, so even a dropped detection consumes its
class's palette slot). -/
def drawLoop (env : RenderEnv) (w h : Nat) :
    List Detection → List (String × String) → List DrawCmd
  | [], _ => []
  | d :: rest, assigned =>
    let cls := d.cls.getD "Unknown"
    let ac := colorFor assigned cls
    detectionCmds env w h ac.2 cls (confOf d) d.bbox ++ drawLoop env w h rest ac.1

/-- The bottom summary plate and text (app.py 269-285). -/
def summaryCmds (env : RenderEnv) (h : Nat) (count : Nat) : List DrawCmd :=
  let ss := env.summarySize count
  let summary_y : Int := (h : Int) - (ss.2 : Int) - 10
  [ .summaryBg 10 (summary_y - 5) (10 + (ss.1 : Int) + 10) (summary_y + (ss.2 : Int) + 5),
    .summaryText 15 summary_y count ]

/-- All drawing calls of one annotation pass over
`detections = yolo_result.get('detections', [])` (app.py 222-285). -/
def drawCommands (env : RenderEnv) (w h : Nat) (dets : List Detection) : List DrawCmd :=
  drawLoop env w h dets [] ++ summaryCmds env h dets.length

/-- The `try` body of `process_yolo_results` (app.py 192-293): `none` when
any step raises (decode, font fallback, a drawing call, or the final
encode), `some bytes` on success. -/
def renderAttempt (env : RenderEnv) (image_data : List Nat) (r : YoloResult) :
    Option (List Nat) :=
  match env.decode with
  | none => none
  | some wh =>
    if env.fontOk then
      let cmds := drawCommands env wh.1 wh.2 (r.detections.getD [])
      if cmds.all env.cmdOk then env.encode cmds else none
    else none

/-- `process_yolo_results(image_data, yolo_result)` (app.py 190-297): the
`try` body's bytes on success, and the unmodified `image_data` when the
`except Exception` branch (295-297) is taken. -/
def process_yolo_results (env : RenderEnv) (image_data : List Nat) (r : YoloResult) :
    List Nat :=
  (renderAttempt env image_data r).getD image_data

/-! ### Notification composer and dispatcher
(`send_email_notification`, app.py 299-421) -/

/-- Python truthiness of an optional string configuration value. -/
def strTruthy : Option String → Bool
  | none => false
  | some s => s != ""

/-- The three Gmail configuration values (app.py 23-25), each possibly
unset in the environment. -/
structure EmailConfig where
  gmail_user : Option String
  gmail_password : Option String
  recipient : Option String
deriving Repr, DecidableEq

/-- `all([GMAIL_USER, GMAIL_PASSWORD, RECIPIENT_EMAIL])` (app.py 303). -/
def EmailConfig.complete (c : EmailConfig) : Bool :=
  strTruthy c.gmail_user && strTruthy c.gmail_password && strTruthy c.recipient

/-- The subject line chosen at app.py 314-322 (the timestamp suffix is
common to all three). -/
inductive Subject where
  | yoloOffline
  | objectsDetected (count : Nat)
  | noObjects
deriving Repr, DecidableEq

/-- The content of the composed message (app.py 307-398), kept structured:
subjects and body line data rather than the final formatted strings. -/
structure EmailMessage where
  subject : Subject
  /-- whether the body is the YOLO-offline body (325-342), which names the
  primary server URL. -/
  yoloFailed : Bool
  /-- the `YOLO_API_URL` interpolated into the offline body (line 337);
  `none` when the body is the online one, which does not name it. -/
  primaryUrl : Option String
  /-- `detection_count = len(yolo_result.get('detections', []))`. -/
  detectionCount : Nat
  /-- `total_detections = len(yolo_result.get('all_detections', detections))`
  (line 346; note the default is `detections`, not `[]`). -/
  totalDetections : Nat
  /-- the per-detection body lines of the `DETECTED OBJECTS` section
  (363-367), one `(class, confidence)` pair per accepted detection. -/
  acceptedEntries : List (String × ℚ)
  /-- the `LOW-CONFIDENCE DETECTIONS` lines (377-384):
  `low_conf_detections[:5]`, each as a `(class, confidence)` pair. -/
  lowConfEntries : List (String × ℚ)
  /-- the bytes attached as `MIMEImage(image_data)` (line 389). -/
  attachment : List Nat
deriving Repr, DecidableEq

/-- Message composition (app.py 307-398) as a function of the arguments of
`send_email_notification`. -/
def compose_email (threshold : ℚ) (primary : Option String) (image_data : List Nat)
    (r : YoloResult) (yolo_failed : Bool) : EmailMessage :=
  if yolo_failed then
    { subject := .yoloOffline, yoloFailed := true, primaryUrl := primary,
      detectionCount := 0, totalDetections := 0,
      acceptedEntries := [], lowConfEntries := [], attachment := image_data }
  else
    let detections := r.detections.getD []
    let detection_count := detections.length
    let total_detections := (r.all_detections.getD detections).length
    { subject := if detection_count > 0 then .objectsDetected detection_count
                 else .noObjects,
      yoloFailed := false, primaryUrl := none,
      detectionCount := detection_count, totalDetections := total_detections,
      acceptedEntries := if detection_count > 0 then detections.map detEntry else [],
      lowConfEntries := ((low_conf_detections threshold r).take 5).map detEntry,
      attachment := image_data }

/-- Outcome of the single SMTP delivery attempt (app.py 401-407):
delivered, `smtplib.SMTPAuthenticationError`, another `smtplib.SMTPException`,
or any other exception (caught only by the function-level `except` at 419). -/
inductive SmtpResult where
  | delivered
  | authError
  | smtpError
  | otherError
deriving Repr, DecidableEq

/-- The observable behaviour of one `send_email_notification` call: the
Python return value, whether the SMTP network connection was attempted,
which `logger.error` line (if any) was emitted, and the composed message
(`none` when composition was skipped by the configuration check). -/
structure EmailOutcome where
  returned : Bool
  attemptedNetwork : Bool
  loggedError : Option String
  message : Option EmailMessage
deriving Repr, DecidableEq

/-- `send_email_notification(image_data, yolo_result, yolo_failed)`
(app.py 299-421).  The configuration check (303-305) short-circuits with
`False` before composing or touching the network; otherwise the message is
composed and the delivery attempt's outcome decides the return value and
the logged error line (409-421). -/
def send_email_notification (cfg : EmailConfig) (smtp : SmtpResult) (threshold : ℚ)
    (primary : Option String) (image_data : List Nat) (r : YoloResult)
    (yolo_failed : Bool) : EmailOutcome :=
  if !cfg.complete then
    { returned := false, attemptedNetwork := false,
      loggedError := some "Email configuration incomplete", message := none }
  else
    let msg := compose_email threshold primary image_data r yolo_failed
    match smtp with
    | .delivered =>
      { returned := true, attemptedNetwork := true, loggedError := none,
        message := some msg }
    | .authError =>
      { returned := false, attemptedNetwork := true,
        loggedError := some "Gmail authentication failed. Check username/password or use App Password",
        message := some msg }
    | .smtpError =>
      { returned := false, attemptedNetwork := true,
        loggedError := some "SMTP error", message := some msg }
    | .otherError =>
      { returned := false, attemptedNetwork := true,
        loggedError := some "Error sending email", message := some msg }

/-! ### Pipeline orchestrator (`upload_photo`, app.py 59-132) -/

/-- Per-request environment of the orchestrator: the process configuration
(app.py 22-35) plus the oracles for the external effects of this request. -/
structure UploadEnv where
  /-- `YOLO_API_URL` (line 22). -/
  primary : Option String
  /-- `CONFIDENCE_THRESHOLD` (line 35). -/
  threshold : ℚ
  /-- outcome of `Image.open` validation on the uploaded bytes (78-84):
  `some (w, h)` gives `image_width, image_height`, `none` raises. -/
  decode : Option (Nat × Nat)
  /-- per-attempt outcomes of the YOLO calls, aligned with `urls_to_try`. -/
  yoloOutcomes : List AttemptOutcome
  render : RenderEnv
  emailCfg : EmailConfig
  smtp : SmtpResult

/-- The JSON body (plus HTTP status code) returned by `/upload`.  Fields
absent from a given branch's dict are `none`. -/
structure UploadResponse where
  httpCode : Nat
  status : Option String
  error : Option String
  message : Option String
  detections : Option (List Detection)
  detection_count : Option Nat
  total_detections : Option Nat
  confidence_threshold : Option ℚ
  email_sent : Option Bool
  image_size : Option (Nat × Nat)
deriving Repr, DecidableEq

/-- The arguments `upload_photo` passed to `send_email_notification`,
recorded so theorems can speak about what was attached. -/
structure EmailCall where
  image_data : List Nat
  result : YoloResult
  yolo_failed : Bool
deriving Repr, DecidableEq

/-- A 400 client-error response (app.py 73, 84): just `{"error": msg}`. -/
def errorResponse (msg : String) : UploadResponse :=
  { httpCode := 400, status := none, error := some msg, message := none,
    detections := none, detection_count := none, total_detections := none,
    confidence_threshold := none, email_sent := none, image_size := none }

/-- The literal `{"detections": []}` dict passed to
`send_email_notification` in the degraded branch (app.py 120). -/
def yoloFailedResult : YoloResult :=
  { detections := some [], all_detections := none, extraKeys := 0 }

/-- The degraded branch of `upload_photo` (app.py 118-128): email the
original image with `yolo_failed=True` and answer `partial_success`. -/
def uploadDegraded (env : UploadEnv) (image_data : List Nat) :
    UploadResponse × Option EmailCall :=
  let eo := send_email_notification env.emailCfg env.smtp env.threshold env.primary
      image_data yoloFailedResult true
  ({ httpCode := 200, status := some "partial_success", error := none,
     message := some "YOLO processing failed but email sent with original image",
     detections := some [], detection_count := none, total_detections := none,
     confidence_threshold := none, email_sent := some eo.returned,
     image_size := none },
   some { image_data := image_data, result := yoloFailedResult, yolo_failed := true })

/-- The successful-detection branch of `upload_photo` (app.py 89-117):
filter, re-store the filtered list under `detections`, annotate, email the
annotated image, and answer `success` with the counts. -/
def uploadDetected (env : UploadEnv) (image_data : List Nat) (wh : Nat × Nat)
    (r : YoloResult) : UploadResponse × Option EmailCall :=
  let fr := filter_detections env.threshold r
  let r2 := { fr.2 with detections := some fr.1 }
  let annotated := process_yolo_results env.render image_data r2
  let eo := send_email_notification env.emailCfg env.smtp env.threshold env.primary
      annotated r2 false
  ({ httpCode := 200, status := some "success", error := none,
     message := some ("Photo processed successfully" ++
       (if eo.returned then " and notification email sent"
        else " but email notification failed")),
     detections := some fr.1, detection_count := some fr.1.length,
     total_detections := some (r2.all_detections.getD []).length,
     confidence_threshold := some env.threshold,
     email_sent := some eo.returned, image_size := some wh },
   some { image_data := annotated, result := r2, yolo_failed := false })

/-- `upload_photo()` (app.py 59-132): empty body check, image validation,
detection with failover, then the `if yolo_result:` dispatch on Python
dict truthiness. -/
def upload_photo (env : UploadEnv) (image_data : List Nat) :
    UploadResponse × Option EmailCall :=
  if image_data = [] then (errorResponse "No image data received", none)
  else
    match env.decode with
    | none => (errorResponse "Invalid image data", none)
    | some wh =>
      match (send_to_yolo env.primary env.yoloOutcomes).1 with
      | some r =>
        if r.truthy then uploadDetected env image_data wh r
        else uploadDegraded env image_data
      | none => uploadDegraded env image_data

/-! ### Helper lemmas -/

theorem triesNext_iff (o : AttemptOutcome) : triesNext o = true ↔ parseSuccess o = none := by
  cases o with
  | httpResponse code body =>
    by_cases hc : code = 200 <;> cases body <;>
      simp [triesNext, parseSuccess, hc]
  | timeout => simp [triesNext, parseSuccess]
  | connectionError => simp [triesNext, parseSuccess]
  | requestError => simp [triesNext, parseSuccess]
  | otherError => simp [triesNext, parseSuccess]

theorem send_to_yolo_run_all_fail (l : List (String × AttemptOutcome))
    (h : ∀ p ∈ l, parseSuccess p.2 = none) :
    send_to_yolo_run l = (none, l.map Prod.fst) := by
  induction l with
  | nil => rfl
  | cons p rest ih =>
    have hp := h p (List.mem_cons_self p rest)
    have hrest := ih (fun q hq => h q (List.mem_cons_of_mem p hq))
    cases p with
    | mk u o => simp [send_to_yolo_run, hp, hrest]

theorem send_to_yolo_run_first_success (l : List (String × AttemptOutcome))
    (k : Nat) (u : String) (r : YoloResult)
    (hfail : ((l.take k).all fun p => triesNext p.2) = true)
    (hsucc : l[k]? = some (u, .httpResponse 200 (some r))) :
    send_to_yolo_run l = (some r, (l.take (k + 1)).map Prod.fst) := by
  induction l generalizing k with
  | nil => simp at hsucc
  | cons p rest ih =>
    cases k with
    | zero =>
      simp only [List.getElem?_cons_zero, Option.some_inj] at hsucc
      subst hsucc
      simp [send_to_yolo_run, parseSuccess]
    | succ k =>
      simp only [List.take_succ_cons, List.all_cons, Bool.and_eq_true] at hfail
      have hp : parseSuccess p.2 = none := (triesNext_iff p.2).mp hfail.1
      have htail := ih k hfail.2 (by simpa using hsucc)
      cases p with
      | mk v o => simp only [send_to_yolo_run] at *; simp [hp, htail]

/-! ### C1 — ordered stop-on-first-success failover -/

/-- C1: for the ordered list of configured endpoints (primary then backups,
unset entries skipped), if every attempt before position `k` fails (times
out, fails to connect, raises a request exception, returns a non-success
status, or otherwise makes the loop move on) and the attempt at position
`k` returns HTTP 200 with a body parsing to `r`, then `send_to_yolo`
returns exactly `r` and the attempted URLs are precisely the first `k+1`
configured URLs, in configuration order — endpoints `k+2..n` are never
attempted, and no earlier failure is fatal. -/
theorem send_to_yolo_first_success (configured : List (Option String))
    (outs : List AttemptOutcome) (k : Nat) (u : String) (r : YoloResult)
    (hlen : (urls_to_try configured).length ≤ outs.length)
    (hfail : ((((urls_to_try configured).zip outs).take k).all
        fun p => triesNext p.2) = true)
    (hsucc : ((urls_to_try configured).zip outs)[k]? =
        some (u, .httpResponse 200 (some r))) :
    send_to_yolo_run ((urls_to_try configured).zip outs) =
      (some r, (urls_to_try configured).take (k + 1)) := by
  rw [send_to_yolo_run_first_success _ k u r hfail hsucc]
  rw [List.map_take, List.map_fst_zip _ _ hlen]

/-- Witness for C1 at a concrete configuration: the primary endpoint times
out, the first backup answers 500, the second backup succeeds; the call
returns the second backup's parsed result and attempts exactly the first
three URLs. -/
theorem send_to_yolo_first_success_witness :
    (urls_to_try (some "http://yolo-host:5001/detect" ::
        YOLO_BACKUP_URLS.map some)).length ≤
      ([.timeout, .httpResponse 500 none,
        .httpResponse 200 (some { detections := some [], all_detections := none,
                                  extraKeys := 0 }),
        .connectionError] : List AttemptOutcome).length ∧
    send_to_yolo_run ((urls_to_try (some "http://yolo-host:5001/detect" ::
        YOLO_BACKUP_URLS.map some)).zip
      [.timeout, .httpResponse 500 none,
       .httpResponse 200 (some { detections := some [], all_detections := none,
                                 extraKeys := 0 }),
       .connectionError]) =
      (some { detections := some [], all_detections := none, extraKeys := 0 },
       ["http://yolo-host:5001/detect", "http://127.0.0.1:5001/detect",
        "http://localhost:5001/detect"]) :=
  ⟨by decide,
   send_to_yolo_first_success
     (some "http://yolo-host:5001/detect" :: YOLO_BACKUP_URLS.map some)
     [.timeout, .httpResponse 500 none,
      .httpResponse 200 (some { detections := some [], all_detections := none,
                                extraKeys := 0 }),
      .connectionError]
     2 "http://localhost:5001/detect"
     { detections := some [], all_detections := none, extraKeys := 0 }
     (by decide) (by decide) (by decide)⟩

/-! ### C2 — the confidence filter partitions the detection list -/

theorem low_conf_after_filter (t : ℚ) (r : YoloResult) :
    low_conf_detections t (filter_detections t r).2 =
      (r.detections.getD []).filter fun d => decide (confOf d < t) := by
  simp [low_conf_detections, filter_detections]

theorem accepted_of_filter (t : ℚ) (r : YoloResult) :
    (filter_detections t r).1 =
      (r.detections.getD []).filter fun d => decide (confOf d ≥ t) := rfl

theorem lt_decide_eq_not_ge (t : ℚ) :
    (fun d => decide (confOf d < t)) = fun d => !decide (confOf d ≥ t) := by
  funext d
  by_cases h : confOf d < t
  · simp [h, not_le.mpr h]
  · simp [h, not_lt.mp h]

/-- C2: for every detection result `r` (with detection list
`L = r.detections.getD []`, a missing `confidence` key counting as `0`)
and every threshold `t ∈ [0,1]`: the accepted list returned by
`filter_detections` and the rejected (low-confidence) list computed by
`send_email_notification` from the dict `filter_detections` produced
partition `L` exactly — together they are a permutation of `L` (multiset
equality), every accepted detection has confidence `≥ t`, every rejected
one has confidence `< t`, no detection is in both, and each list is a
sublist of `L` (input order preserved). -/
theorem filter_detections_partition (t : ℚ) (r : YoloResult)
    (h0 : 0 ≤ t) (h1 : t ≤ 1) :
    List.Perm ((filter_detections t r).1 ++
        low_conf_detections t (filter_detections t r).2)
      (r.detections.getD []) ∧
    (∀ d ∈ (filter_detections t r).1, confOf d ≥ t) ∧
    (∀ d ∈ low_conf_detections t (filter_detections t r).2, confOf d < t) ∧
    (∀ d ∈ (filter_detections t r).1,
        d ∉ low_conf_detections t (filter_detections t r).2) ∧
    List.Sublist (filter_detections t r).1 (r.detections.getD []) ∧
    List.Sublist (low_conf_detections t (filter_detections t r).2)
      (r.detections.getD []) := by
  rw [low_conf_after_filter, accepted_of_filter]
  refine ⟨?_, ?_, ?_, ?_, ?_, ?_⟩
  · rw [lt_decide_eq_not_ge]
    exact List.filter_append_perm _ _
  · intro d hd
    exact of_decide_eq_true (List.mem_filter.mp hd).2
  · intro d hd
    exact of_decide_eq_true (List.mem_filter.mp hd).2
  · intro d hd hd2
    have hge : confOf d ≥ t := of_decide_eq_true (List.mem_filter.mp hd).2
    have hlt : confOf d < t := of_decide_eq_true (List.mem_filter.mp hd2).2
    exact absurd hge (not_le.mpr hlt)
  · exact List.filter_sublist _
  · exact List.filter_sublist _

/-- Concrete parsed YOLO response used by the C2 witness: one detection
above threshold, one below, one with no confidence key. -/
def wr2 : YoloResult :=
  { detections := some
      [ { cls := some "person", confidence := some (9/10), bbox := [1, 2, 3, 4] },
        { cls := some "cat", confidence := some (3/10), bbox := [] },
        { cls := none, confidence := none, bbox := [0] } ],
    all_detections := none, extraKeys := 0 }

/-- Witness for C2 at threshold `1/2` on a three-element detection list
(one above threshold, one below, one with no confidence key). -/
theorem filter_detections_partition_witness :
    (0 ≤ (1 : ℚ)/2 ∧ (1 : ℚ)/2 ≤ 1) ∧
    (List.Perm ((filter_detections (1/2) wr2).1 ++
        low_conf_detections (1/2) (filter_detections (1/2) wr2).2)
      (wr2.detections.getD []) ∧
    (∀ d ∈ (filter_detections (1/2) wr2).1, confOf d ≥ 1/2) ∧
    (∀ d ∈ low_conf_detections (1/2) (filter_detections (1/2) wr2).2,
        confOf d < 1/2) ∧
    (∀ d ∈ (filter_detections (1/2) wr2).1,
        d ∉ low_conf_detections (1/2) (filter_detections (1/2) wr2).2) ∧
    List.Sublist (filter_detections (1/2) wr2).1 (wr2.detections.getD []) ∧
    List.Sublist (low_conf_detections (1/2) (filter_detections (1/2) wr2).2)
      (wr2.detections.getD [])) :=
  ⟨⟨by norm_num, by norm_num⟩,
   filter_detections_partition (1/2) wr2 (by norm_num) (by norm_num)⟩

/-! ### C3 — all endpoints fail: distinguished None, degraded pipeline -/

/-- C3: if every attempted endpoint fails (no attempt yields HTTP 200 with
a parseable body), `send_to_yolo` returns the distinguished Python `None`
— modelled `none`, distinct from `some` of any detection result, in
particular from an empty detection list — and `upload_photo` (on a
non-empty, decodable image) still calls `send_email_notification` with the
unmodified original image bytes and the literal `{"detections": []}` dict
and `yolo_failed=True`, and answers HTTP 200 with status
`partial_success`, whatever the notification outcome (the email
configuration and SMTP outcome are quantified over by `env`). -/
theorem upload_all_endpoints_failed (env : UploadEnv) (image_data : List Nat)
    (wh : Nat × Nat) (hne : image_data ≠ []) (hdec : env.decode = some wh)
    (hfail : ∀ o ∈ env.yoloOutcomes, parseSuccess o = none) :
    (send_to_yolo env.primary env.yoloOutcomes).1 = none ∧
    (∀ r : YoloResult, (send_to_yolo env.primary env.yoloOutcomes).1 ≠ some r) ∧
    (upload_photo env image_data).1.status = some "partial_success" ∧
    (upload_photo env image_data).1.httpCode = 200 ∧
    (upload_photo env image_data).1.email_sent =
      some (send_email_notification env.emailCfg env.smtp env.threshold env.primary
        image_data yoloFailedResult true).returned ∧
    (upload_photo env image_data).2 =
      some { image_data := image_data, result := yoloFailedResult,
             yolo_failed := true } := by
  have hnone : (send_to_yolo env.primary env.yoloOutcomes).1 = none := by
    rw [send_to_yolo, send_to_yolo_run_all_fail]
    intro p hp
    exact hfail p.2 (List.of_mem_zip hp).2
  have hup : upload_photo env image_data = uploadDegraded env image_data := by
    rw [upload_photo, if_neg hne, hdec, hnone]
  refine ⟨hnone, fun r hr => by simp [hnone] at hr, ?_, ?_, ?_, ?_⟩ <;>
    simp [hup, uploadDegraded]

/-- A concrete render oracle in which every PIL step succeeds. -/
def wrenderOk : RenderEnv :=
  { decode := some (8, 8), fontOk := true,
    textSize := fun _ _ => (40, 20), summarySize := fun _ => (80, 20),
    cmdOk := fun _ => true, encode := fun _ => some [9, 9, 9] }

/-- Concrete upload environment for the C3 witness: primary unset, all
three hardcoded backups time out, email configuration incomplete. -/
def wenv3 : UploadEnv :=
  { primary := none, threshold := 1/2, decode := some (8, 8),
    yoloOutcomes := [.timeout, .timeout, .timeout], render := wrenderOk,
    emailCfg := { gmail_user := none, gmail_password := none, recipient := none },
    smtp := .otherError }

/-- Witness for C3: primary unset, all three backups time out, email
configuration incomplete; the pipeline still reports `partial_success` and
mails the original bytes. -/
theorem upload_all_endpoints_failed_witness :
    (([7, 7, 7] : List Nat) ≠ [] ∧ wenv3.decode = some (8, 8) ∧
      ∀ o ∈ wenv3.yoloOutcomes, parseSuccess o = none) ∧
    ((send_to_yolo wenv3.primary wenv3.yoloOutcomes).1 = none ∧
    (∀ r : YoloResult, (send_to_yolo wenv3.primary wenv3.yoloOutcomes).1 ≠ some r) ∧
    (upload_photo wenv3 [7, 7, 7]).1.status = some "partial_success" ∧
    (upload_photo wenv3 [7, 7, 7]).1.httpCode = 200 ∧
    (upload_photo wenv3 [7, 7, 7]).1.email_sent =
      some (send_email_notification wenv3.emailCfg wenv3.smtp wenv3.threshold
        wenv3.primary [7, 7, 7] yoloFailedResult true).returned ∧
    (upload_photo wenv3 [7, 7, 7]).2 =
      some { image_data := [7, 7, 7], result := yoloFailedResult,
             yolo_failed := true }) :=
  ⟨⟨by decide, rfl, by decide⟩,
   upload_all_endpoints_failed wenv3 [7, 7, 7] (8, 8) (by decide) rfl (by decide)⟩

/-! ### C4 — notification failure after successful detection -/

/-- One truthy parsed YOLO response with a single high-confidence
detection, used by several concrete environments below. -/
def wrDet : YoloResult :=
  { detections := some
      [ { cls := some "person", confidence := some (9/10), bbox := [1, 2, 3, 4] } ],
    all_detections := none, extraKeys := 0 }

/-- A complete email configuration. -/
def wcfgFull : EmailConfig :=
  { gmail_user := some "cam@example.com", gmail_password := some "apppw",
    recipient := some "owner@example.com" }

/-- Environment in which detection succeeds at the primary endpoint and
SMTP authentication fails. -/
def wenvAuthFail : UploadEnv :=
  { primary := some "http://yolo-host:5001/detect", threshold := 1/2,
    decode := some (8, 8),
    yoloOutcomes := [.httpResponse 200 (some wrDet)], render := wrenderOk,
    emailCfg := wcfgFull, smtp := .authError }

/-- Same environment but the notification is delivered. -/
def wenvDelivered : UploadEnv :=
  { primary := some "http://yolo-host:5001/detect", threshold := 1/2,
    decode := some (8, 8),
    yoloOutcomes := [.httpResponse 200 (some wrDet)], render := wrenderOk,
    emailCfg := wcfgFull, smtp := .delivered }

/-- Counterexample to C4 as stated: in a request where detection succeeded
and notification delivery failed (SMTP authentication error), the response
status field is `"success"` — the very same status reported when the
notification was delivered — not a distinct `partialSuccessNoEmail`
value.  Only `email_sent` and the message suffix differ. -/
theorem upload_email_failure_status_cex :
    (upload_photo wenvAuthFail [7]).1.email_sent = some false ∧
    (upload_photo wenvDelivered [7]).1.email_sent = some true ∧
    (upload_photo wenvAuthFail [7]).1.status = some "success" ∧
    (upload_photo wenvAuthFail [7]).1.status =
      (upload_photo wenvDelivered [7]).1.status := by
  refine ⟨?_, ?_, ?_, ?_⟩ <;> rfl

theorem uploadDetected_status_message (env : UploadEnv) (image_data : List Nat)
    (wh : Nat × Nat) (r : YoloResult) :
    (uploadDetected env image_data wh r).1.status = some "success" ∧
    ∃ b : Bool, (uploadDetected env image_data wh r).1.email_sent = some b ∧
      (uploadDetected env image_data wh r).1.message =
        some ("Photo processed successfully" ++
          (if b then " and notification email sent"
           else " but email notification failed")) :=
  ⟨rfl, _, rfl, rfl⟩

/-- C4 amended: the code has no `partialSuccessNoEmail` status — when
detection succeeds the response status field is `"success"` regardless of
the notification outcome; a failed notification is reported instead
through `email_sent = false` and the message
"... but email notification failed", which differs from the
delivered-case message "... and notification email sent". -/
theorem upload_email_outcome_reported (env : UploadEnv) (image_data : List Nat)
    (wh : Nat × Nat) (r : YoloResult)
    (hne : image_data ≠ []) (hdec : env.decode = some wh)
    (hy : (send_to_yolo env.primary env.yoloOutcomes).1 = some r)
    (htruthy : r.truthy = true) :
    (upload_photo env image_data).1.status = some "success" ∧
    ((upload_photo env image_data).1.email_sent = some false →
      (upload_photo env image_data).1.message =
        some "Photo processed successfully but email notification failed") ∧
    ((upload_photo env image_data).1.email_sent = some true →
      (upload_photo env image_data).1.message =
        some "Photo processed successfully and notification email sent") ∧
    ("Photo processed successfully but email notification failed" ≠
      ("Photo processed successfully and notification email sent" : String)) := by
  have hup : upload_photo env image_data = uploadDetected env image_data wh r := by
    rw [upload_photo, if_neg hne, hdec, hy]
    simp [htruthy]
  obtain ⟨hst, b, hb, hmsg⟩ := uploadDetected_status_message env image_data wh r
  rw [hup]
  refine ⟨hst, ?_, ?_, by decide⟩
  · intro hfalse
    rw [hb] at hfalse
    cases b
    · rw [hmsg]; rfl
    · simp at hfalse
  · intro htrue
    rw [hb] at htrue
    cases b
    · simp at htrue
    · rw [hmsg]; rfl

/-- Witness for C4's amended theorem at the concrete
authentication-failure environment. -/
theorem upload_email_outcome_reported_witness :
    (([7] : List Nat) ≠ [] ∧ wenvAuthFail.decode = some (8, 8) ∧
      (send_to_yolo wenvAuthFail.primary wenvAuthFail.yoloOutcomes).1 = some wrDet ∧
      wrDet.truthy = true) ∧
    ((upload_photo wenvAuthFail [7]).1.status = some "success" ∧
    ((upload_photo wenvAuthFail [7]).1.email_sent = some false →
      (upload_photo wenvAuthFail [7]).1.message =
        some "Photo processed successfully but email notification failed") ∧
    ((upload_photo wenvAuthFail [7]).1.email_sent = some true →
      (upload_photo wenvAuthFail [7]).1.message =
        some "Photo processed successfully and notification email sent") ∧
    ("Photo processed successfully but email notification failed" ≠
      ("Photo processed successfully and notification email sent" : String))) :=
  ⟨⟨by decide, rfl, rfl, by decide⟩,
   upload_email_outcome_reported wenvAuthFail [7] (8, 8) wrDet
     (by decide) rfl rfl (by decide)⟩

/-! ### C5 — the annotation renderer never fails the request -/

/-- C5: `process_yolo_results` is total — for every oracle for the PIL
effects, every input byte sequence and every detection result it returns a
byte sequence (its Lean type has no error case, mirroring the
function-level `try/except`): if any internal step raises (decode failure,
font fallback failure, a failing drawing call — e.g. on coordinates some
Pillow versions reject — or encode failure, i.e. whenever the `try` body
`renderAttempt` yields `none`) the result is exactly the original input
bytes, and otherwise it is the encoder's output; the input byte value is
never altered (the embedding is pure, as are Python `bytes`). -/
theorem process_yolo_results_total (env : RenderEnv) (image_data : List Nat)
    (r : YoloResult) :
    (renderAttempt env image_data r = none →
      process_yolo_results env image_data r = image_data) ∧
    (∀ b, renderAttempt env image_data r = some b →
      process_yolo_results env image_data r = b) ∧
    (env.decode = none → process_yolo_results env image_data r = image_data) ∧
    (env.fontOk = false → process_yolo_results env image_data r = image_data) ∧
    (∀ w h, env.decode = some (w, h) → env.fontOk = true →
      ((drawCommands env w h (r.detections.getD [])).all env.cmdOk) = false →
      process_yolo_results env image_data r = image_data) ∧
    (∀ w h, env.decode = some (w, h) → env.fontOk = true →
      ((drawCommands env w h (r.detections.getD [])).all env.cmdOk) = true →
      env.encode (drawCommands env w h (r.detections.getD [])) = none →
      process_yolo_results env image_data r = image_data) ∧
    (process_yolo_results env image_data r = image_data ∨
      ∃ b, renderAttempt env image_data r = some b ∧
        process_yolo_results env image_data r = b) := by
  refine ⟨?_, ?_, ?_, ?_, ?_, ?_, ?_⟩
  · intro hnone
    simp [process_yolo_results, hnone]
  · intro b hb
    simp [process_yolo_results, hb]
  · intro hdec
    simp [process_yolo_results, renderAttempt, hdec]
  · intro hfont
    unfold process_yolo_results renderAttempt
    cases env.decode <;> simp [hfont]
  · intro w h hdec hfont hcmds
    simp [process_yolo_results, renderAttempt, hdec, hfont, hcmds]
  · intro w h hdec hfont hcmds henc
    simp [process_yolo_results, renderAttempt, hdec, hfont, hcmds, henc]
  · cases hra : renderAttempt env image_data r with
    | none => exact Or.inl (by simp [process_yolo_results, hra])
    | some b => exact Or.inr ⟨b, rfl, by simp [process_yolo_results, hra]⟩

/-- A render oracle whose decode step raises. -/
def wrenderBad : RenderEnv :=
  { decode := none, fontOk := true,
    textSize := fun _ _ => (40, 20), summarySize := fun _ => (80, 20),
    cmdOk := fun _ => true, encode := fun _ => some [9, 9, 9] }

/-- Witness for C5: with a failing decode step the renderer returns the
original bytes unchanged. -/
theorem process_yolo_results_total_witness :
    wrenderBad.decode = none ∧
    process_yolo_results wrenderBad [5, 6] wrDet = [5, 6] :=
  ⟨rfl, (process_yolo_results_total wrenderBad [5, 6] wrDet).2.2.1 rfl⟩

/-! ### C6 — bounding boxes are clamped, malformed boxes dropped -/

theorem clamp_nonneg (v : Int) (bound : Nat) : 0 ≤ clamp v bound :=
  le_max_left 0 _

theorem clamp_le (v : Int) (bound : Nat) : clamp v bound ≤ (bound : Int) :=
  max_le (Int.ofNat_nonneg bound) (min_le_right v _)

theorem boxRect_mem_detectionCmds {env : RenderEnv} {w h : Nat} {color cls : String}
    {conf : ℚ} {bbox : List Int} {x1 y1 x2 y2 : Int} {c : String}
    (hmem : DrawCmd.boxRect x1 y1 x2 y2 c ∈ detectionCmds env w h color cls conf bbox) :
    0 ≤ x1 ∧ x1 ≤ (w : Int) ∧ 0 ≤ y1 ∧ y1 ≤ (h : Int) ∧
    0 ≤ x2 ∧ x2 ≤ (w : Int) ∧ 0 ≤ y2 ∧ y2 ≤ (h : Int) := by
  rcases bbox with _ | ⟨a, _ | ⟨b, _ | ⟨cc, _ | ⟨d, _ | ⟨e, t⟩⟩⟩⟩⟩ <;>
    try exact absurd hmem (List.not_mem_nil _)
  simp only [detectionCmds, List.mem_cons, List.not_mem_nil, or_false] at hmem
  rcases hmem with h1 | h1 | h1
  · rw [DrawCmd.boxRect.injEq] at h1
    obtain ⟨e1, e2, e3, e4, _⟩ := h1
    subst e1; subst e2; subst e3; subst e4
    exact ⟨clamp_nonneg _ _, clamp_le _ _, clamp_nonneg _ _, clamp_le _ _,
      clamp_nonneg _ _, clamp_le _ _, clamp_nonneg _ _, clamp_le _ _⟩
  · simp at h1
  · simp at h1

theorem boxRect_mem_drawLoop {env : RenderEnv} {w h : Nat} :
    ∀ (dets : List Detection) (assigned : List (String × String))
      {x1 y1 x2 y2 : Int} {c : String},
      DrawCmd.boxRect x1 y1 x2 y2 c ∈ drawLoop env w h dets assigned →
      0 ≤ x1 ∧ x1 ≤ (w : Int) ∧ 0 ≤ y1 ∧ y1 ≤ (h : Int) ∧
      0 ≤ x2 ∧ x2 ≤ (w : Int) ∧ 0 ≤ y2 ∧ y2 ≤ (h : Int) := by
  intro dets
  induction dets with
  | nil => intro assigned x1 y1 x2 y2 c hmem; simp [drawLoop] at hmem
  | cons d rest ih =>
    intro assigned x1 y1 x2 y2 c hmem
    rw [drawLoop, List.mem_append] at hmem
    rcases hmem with hmem | hmem
    · exact boxRect_mem_detectionCmds hmem
    · exact ih _ hmem

/-- C6: in the annotation pass over image dimensions `w × h`, (i) every
bounding-box outline drawn has all four coordinates clamped into
`[0, w] × [0, h]`, for arbitrary (unordered, out-of-bounds) input
coordinates; (ii) a detection whose `bbox` does not have exactly 4
elements produces no drawing at all; (iii) the renderer never turns a
drawing problem into a request failure: whatever the drawing oracle does
— including rejecting a rectangle whose clamped coordinates are unordered
(`x1 > x2` or `y1 > y2`) — `process_yolo_results` returns plain bytes,
falling back to the original input. -/
theorem drawCommands_clamped (env : RenderEnv) (w h : Nat) (dets : List Detection) :
    (∀ x1 y1 x2 y2 c, DrawCmd.boxRect x1 y1 x2 y2 c ∈ drawCommands env w h dets →
      0 ≤ x1 ∧ x1 ≤ (w : Int) ∧ 0 ≤ y1 ∧ y1 ≤ (h : Int) ∧
      0 ≤ x2 ∧ x2 ≤ (w : Int) ∧ 0 ≤ y2 ∧ y2 ≤ (h : Int)) ∧
    (∀ color cls conf (bbox : List Int), bbox.length ≠ 4 →
      detectionCmds env w h color cls conf bbox = []) ∧
    (∀ image_data r, process_yolo_results env image_data r =
      (renderAttempt env image_data r).getD image_data) := by
  refine ⟨?_, ?_, ?_⟩
  · intro x1 y1 x2 y2 c hmem
    rw [drawCommands, List.mem_append] at hmem
    rcases hmem with hmem | hmem
    · exact boxRect_mem_drawLoop dets [] hmem
    · simp [summaryCmds] at hmem
  · intro color cls conf bbox hlen
    rcases bbox with _ | ⟨a, _ | ⟨b, _ | ⟨cc, _ | ⟨d, _ | ⟨e, t⟩⟩⟩⟩⟩ <;>
      first
      | rfl
      | exact absurd (by simp : ([a, b, cc, d] : List Int).length = 4) hlen
  · intro image_data r
    rfl

/-- Detection list for the C6 witness: a single detection whose box is far
outside (and inverted with respect to) a 100 × 80 canvas. -/
def wdets6 : List Detection :=
  [ { cls := some "dog", confidence := none, bbox := [-5, 900, 1000, -3] } ]

/-- Witness for C6: the out-of-bounds inverted box `[-5, 900, 1000, -3]`
is drawn as the clamped (still unordered) rectangle `(0, 80, 100, 0)`,
whose coordinates the theorem places inside `[0,100] × [0,80]`; and a
3-element bbox produces no drawing. -/
theorem drawCommands_clamped_witness :
    (DrawCmd.boxRect 0 80 100 0 "red" ∈ drawCommands wrenderOk 100 80 wdets6 ∧
      ([(-5 : Int), 900, 1000] : List Int).length ≠ 4) ∧
    ((0 ≤ (0 : Int) ∧ (0 : Int) ≤ (100 : Int) ∧ 0 ≤ (80 : Int) ∧
        (80 : Int) ≤ (80 : Int) ∧ 0 ≤ (100 : Int) ∧ (100 : Int) ≤ (100 : Int) ∧
        0 ≤ (0 : Int) ∧ (0 : Int) ≤ (80 : Int)) ∧
      detectionCmds wrenderOk 100 80 "red" "dog" 0 [-5, 900, 1000] = []) :=
  ⟨⟨by decide, by decide⟩,
   ⟨(drawCommands_clamped wrenderOk 100 80 wdets6).1 0 80 100 0 "red" (by decide),
    (drawCommands_clamped wrenderOk 100 80 wdets6).2.1 "red" "dog" 0
      [-5, 900, 1000] (by decide)⟩⟩

/-! ### C7 — notification failure-mode reporting -/

/-- Counterexample to C7 as stated: the dispatcher's result — the value
`send_email_notification` returns to its caller, the only thing the
orchestrator and the `/upload` response ever see — is the same `False` for
an SMTP authentication failure as for a generic SMTP transport failure; no
distinct `failureReason` value is returned. -/
theorem send_email_result_not_distinct_cex :
    (send_email_notification wcfgFull .authError (1/2) none [7] wrDet false).returned =
      (send_email_notification wcfgFull .smtpError (1/2) none [7] wrDet false).returned ∧
    (send_email_notification wcfgFull .authError (1/2) none [7] wrDet false).returned =
      false := by
  exact ⟨rfl, rfl⟩

/-- C7 amended: incomplete configuration (any of sender, credential,
recipient unset or empty) makes `send_email_notification` return `False`
immediately, with no network attempt and the dedicated log line
"Email configuration incomplete"; an SMTP authentication failure and a
generic SMTP failure both also return `False` — they are distinguished
only by their logged error lines, which differ from each other and from
the configuration one, not by the returned value. -/
theorem send_email_failure_modes (cfgBad cfgGood : EmailConfig) (smtp : SmtpResult)
    (t : ℚ) (primary : Option String) (image_data : List Nat) (r : YoloResult)
    (yolo_failed : Bool)
    (hb : cfgBad.complete = false) (hg : cfgGood.complete = true) :
    send_email_notification cfgBad smtp t primary image_data r yolo_failed =
      { returned := false, attemptedNetwork := false,
        loggedError := some "Email configuration incomplete", message := none } ∧
    (send_email_notification cfgGood .authError t primary image_data r
        yolo_failed).returned = false ∧
    (send_email_notification cfgGood .smtpError t primary image_data r
        yolo_failed).returned = false ∧
    (send_email_notification cfgGood .authError t primary image_data r
        yolo_failed).attemptedNetwork = true ∧
    (send_email_notification cfgGood .authError t primary image_data r
        yolo_failed).loggedError =
      some "Gmail authentication failed. Check username/password or use App Password" ∧
    (send_email_notification cfgGood .smtpError t primary image_data r
        yolo_failed).loggedError = some "SMTP error" ∧
    ("Gmail authentication failed. Check username/password or use App Password" ≠
      ("SMTP error" : String)) ∧
    ("SMTP error" ≠ ("Email configuration incomplete" : String)) := by
  refine ⟨?_, ?_, ?_, ?_, ?_, ?_, by decide, by decide⟩
  · simp [send_email_notification, hb]
  all_goals simp [send_email_notification, hg]

/-- Witness for C7's amended theorem: the all-unset configuration versus
the complete one. -/
theorem send_email_failure_modes_witness :
    ((EmailConfig.mk none none none).complete = false ∧ wcfgFull.complete = true) ∧
    (send_email_notification (EmailConfig.mk none none none) .otherError (1/2) none
        [7] wrDet false =
      { returned := false, attemptedNetwork := false,
        loggedError := some "Email configuration incomplete", message := none } ∧
    (send_email_notification wcfgFull .authError (1/2) none [7] wrDet
        false).returned = false ∧
    (send_email_notification wcfgFull .smtpError (1/2) none [7] wrDet
        false).returned = false ∧
    (send_email_notification wcfgFull .authError (1/2) none [7] wrDet
        false).attemptedNetwork = true ∧
    (send_email_notification wcfgFull .authError (1/2) none [7] wrDet
        false).loggedError =
      some "Gmail authentication failed. Check username/password or use App Password" ∧
    (send_email_notification wcfgFull .smtpError (1/2) none [7] wrDet
        false).loggedError = some "SMTP error" ∧
    ("Gmail authentication failed. Check username/password or use App Password" ≠
      ("SMTP error" : String)) ∧
    ("SMTP error" ≠ ("Email configuration incomplete" : String))) :=
  ⟨⟨by decide, by decide⟩,
   send_email_failure_modes (EmailConfig.mk none none none) wcfgFull .otherError
     (1/2) none [7] wrDet false (by decide) (by decide)⟩

/-! ### C8 — is the detection filter pure? -/

/-- Counterexample to C8 as stated: `filter_detections` does not leave its
argument unchanged — on a dict with no `all_detections` key it stores the
raw detection list under that key (`yolo_result['all_detections'] = ...`,
app.py line 145), so the dict after the call differs from the dict before.
-/
theorem filter_detections_mutates_cex :
    (filter_detections (1/2)
        { detections := some [], all_detections := none, extraKeys := 0 }).2 ≠
      { detections := some [], all_detections := none, extraKeys := 0 } ∧
    (filter_detections (1/2)
        { detections := some [], all_detections := none, extraKeys := 0 }).2.all_detections =
      some [] := by
  exact ⟨by decide, rfl⟩

/-- C8 amended: the returned (accepted) list is a pure function of the
input `detections` list and the threshold — two dicts with the same
`detections` value give the same output — but the function is not
argument-preserving: the dict after the call is exactly the input dict
with the raw detection list stored under `all_detections` (the
`detections` value and the other keys are untouched). -/
theorem filter_detections_functional (t : ℚ) (r rOther : YoloResult)
    (hdet : r.detections = rOther.detections) :
    (filter_detections t r).1 = (filter_detections t rOther).1 ∧
    (filter_detections t r).2 =
      { r with all_detections := some (r.detections.getD []) } ∧
    (filter_detections t r).2.detections = r.detections ∧
    (filter_detections t r).2.extraKeys = r.extraKeys := by
  refine ⟨?_, rfl, rfl, rfl⟩
  simp [filter_detections, hdet]

/-- A dict sharing `wr2`'s detection list but differing in every other
key, for the C8 witness. -/
def wr2other : YoloResult :=
  { detections := wr2.detections, all_detections := some [], extraKeys := 3 }

/-- Witness for C8's amended theorem: two dicts sharing a `detections`
list but differing elsewhere produce the same accepted list. -/
theorem filter_detections_functional_witness :
    wr2.detections = wr2other.detections ∧
    ((filter_detections (1/2) wr2).1 = (filter_detections (1/2) wr2other).1 ∧
    (filter_detections (1/2) wr2).2 =
      { wr2 with all_detections := some (wr2.detections.getD []) } ∧
    (filter_detections (1/2) wr2).2.detections = wr2.detections ∧
    (filter_detections (1/2) wr2).2.extraKeys = wr2.extraKeys) :=
  ⟨rfl, filter_detections_functional (1/2) wr2 wr2other rfl⟩

/-! ### C9 — body enumeration and the low-confidence sample -/

/-- Post-filter detection result for the C9 counterexample: one accepted
detection and six rejected ones, of which the LAST has the highest
confidence (`49/100`) among the rejected. -/
def wr9 : YoloResult :=
  { detections := some
      [ { cls := some "person", confidence := some (mkRat 9 10), bbox := [1, 2, 3, 4] } ],
    all_detections := some
      [ { cls := some "person", confidence := some (mkRat 9 10), bbox := [1, 2, 3, 4] },
        { cls := some "a", confidence := some (mkRat 1 10), bbox := [] },
        { cls := some "b", confidence := some (mkRat 1 10), bbox := [] },
        { cls := some "c", confidence := some (mkRat 1 5), bbox := [] },
        { cls := some "d", confidence := some (mkRat 1 10), bbox := [] },
        { cls := some "e", confidence := some (mkRat 1 10), bbox := [] },
        { cls := some "top", confidence := some (mkRat 49 100), bbox := [] } ],
    extraKeys := 0 }

/-- Counterexample to C9 as stated: with one accepted detection and six
rejected ones, the body's low-confidence section lists the FIRST five
rejected detections in input order (`low_conf_detections[:5]`, app.py
line 381) — the rejected detection `top` with the highest confidence
`49/100` is not listed, while five entries of strictly lower confidence
are.  The listed rejected detections are not the highest-confidence ones.
-/
theorem compose_email_low_conf_cex :
    (compose_email (mkRat 1 2) none [7] wr9 false).acceptedEntries =
      [("person", mkRat 9 10)] ∧
    (low_conf_detections (mkRat 1 2) wr9).map detEntry =
      [("a", mkRat 1 10), ("b", mkRat 1 10), ("c", mkRat 1 5),
       ("d", mkRat 1 10), ("e", mkRat 1 10), ("top", mkRat 49 100)] ∧
    (compose_email (mkRat 1 2) none [7] wr9 false).lowConfEntries =
      [("a", mkRat 1 10), ("b", mkRat 1 10), ("c", mkRat 1 5),
       ("d", mkRat 1 10), ("e", mkRat 1 10)] ∧
    "top" ∉ (compose_email (mkRat 1 2) none [7] wr9
        false).lowConfEntries.map Prod.fst ∧
    (∀ q ∈ (compose_email (mkRat 1 2) none [7] wr9 false).lowConfEntries,
      q.2 < mkRat 49 100) := by
  refine ⟨rfl, rfl, rfl, by decide, ?_⟩
  intro q hq
  have hl : (compose_email (mkRat 1 2) none [7] wr9 false).lowConfEntries =
      [("a", mkRat 1 10), ("b", mkRat 1 10), ("c", mkRat 1 5),
       ("d", mkRat 1 10), ("e", mkRat 1 10)] := rfl
  rw [hl] at hq
  fin_cases hq <;> decide

/-- C9 amended: when at least one detection is accepted, the body
enumerates every accepted detection with its class (default "Unknown")
and its confidence (rendered as a percentage), and additionally lists at
most 5 rejected detections — namely the FIRST 5 rejected ones in input
(backend) order, each indeed of confidence below the threshold, but not
necessarily the highest-confidence rejected ones. -/
theorem compose_email_entries (t : ℚ) (primary : Option String)
    (image_data : List Nat) (r : YoloResult)
    (hne : r.detections.getD [] ≠ []) :
    (compose_email t primary image_data r false).subject =
      .objectsDetected (r.detections.getD []).length ∧
    (compose_email t primary image_data r false).acceptedEntries =
      (r.detections.getD []).map detEntry ∧
    (compose_email t primary image_data r false).lowConfEntries =
      ((low_conf_detections t r).take 5).map detEntry ∧
    (compose_email t primary image_data r false).lowConfEntries.length ≤ 5 ∧
    (∀ q ∈ (compose_email t primary image_data r false).lowConfEntries,
      ∃ d ∈ low_conf_detections t r, detEntry d = q ∧ confOf d < t) := by
  have hpos : 0 < (r.detections.getD []).length := List.length_pos.mpr hne
  have hsub : (compose_email t primary image_data r false).subject =
      .objectsDetected (r.detections.getD []).length := by
    simp [compose_email, hpos]
  have hacc : (compose_email t primary image_data r false).acceptedEntries =
      (r.detections.getD []).map detEntry := by
    simp [compose_email, hpos]
  have hlow : (compose_email t primary image_data r false).lowConfEntries =
      ((low_conf_detections t r).take 5).map detEntry := by
    simp [compose_email]
  refine ⟨hsub, hacc, hlow, ?_, ?_⟩
  · rw [hlow, List.length_map, List.length_take]
    exact min_le_left 5 _
  · intro q hq
    rw [hlow] at hq
    obtain ⟨d, hd5, hdq⟩ := List.mem_map.mp hq
    have hdlow : d ∈ low_conf_detections t r := List.take_subset 5 _ hd5
    have hconf : confOf d < t :=
      of_decide_eq_true (List.mem_filter.mp hdlow).2
    exact ⟨d, hdlow, hdq, hconf⟩

/-- Witness for C9's amended theorem at the concrete `wr9`. -/
theorem compose_email_entries_witness :
    wr9.detections.getD [] ≠ [] ∧
    ((compose_email (mkRat 1 2) none [7] wr9 false).subject =
      .objectsDetected (wr9.detections.getD []).length ∧
    (compose_email (mkRat 1 2) none [7] wr9 false).acceptedEntries =
      (wr9.detections.getD []).map detEntry ∧
    (compose_email (mkRat 1 2) none [7] wr9 false).lowConfEntries =
      ((low_conf_detections (mkRat 1 2) wr9).take 5).map detEntry ∧
    (compose_email (mkRat 1 2) none [7] wr9 false).lowConfEntries.length ≤ 5 ∧
    (∀ q ∈ (compose_email (mkRat 1 2) none [7] wr9 false).lowConfEntries,
      ∃ d ∈ low_conf_detections (mkRat 1 2) wr9, detEntry d = q ∧
        confOf d < mkRat 1 2)) :=
  ⟨by decide, compose_email_entries (mkRat 1 2) none [7] wr9 (by decide)⟩

/-! ### C10 — 200 response whose JSON body lacks the detections key -/

/-- The parsed body `{}`: a 200 response whose JSON object is empty. -/
def wrEmpty : YoloResult := { detections := none, all_detections := none, extraKeys := 0 }

/-- Environment in which the primary endpoint answers 200 with body `{}`. -/
def wenvEmptyBody : UploadEnv :=
  { primary := some "http://yolo-host:5001/detect", threshold := mkRat 1 2,
    decode := some (8, 8),
    yoloOutcomes := [.httpResponse 200 (some wrEmpty)], render := wrenderOk,
    emailCfg := wcfgFull, smtp := .delivered }

/-- Counterexample to C10 as stated: an endpoint answering 200 with the
JSON body `{}` — which lacks the `detections` key — is indeed returned by
`send_to_yolo` without failover, but the upload handler then takes the
degraded branch (`if yolo_result:` is false for an empty Python dict), so
the response has status `partial_success` and no `detection_count` field
at all, not the claimed non-degraded `success` with `detection_count = 0`.
-/
theorem upload_empty_body_cex :
    (send_to_yolo wenvEmptyBody.primary wenvEmptyBody.yoloOutcomes).1 =
      some wrEmpty ∧
    wrEmpty.detections = none ∧
    (upload_photo wenvEmptyBody [7]).1.status = some "partial_success" ∧
    (upload_photo wenvEmptyBody [7]).1.detection_count = none := by
  exact ⟨rfl, rfl, rfl, rfl⟩

/-- C10 amended: a 200 response parsing to a body `r` is returned by the
detection call immediately, with no failover, whatever `r` contains; and
if `r` lacks the `detections` key but is a NON-EMPTY JSON object (Python
dict truthiness), the upload response reports `detection_count = 0`,
`total_detections = 0` and the non-degraded `success` status.  (For the
empty object `{}` the handler instead takes the degraded
`partial_success` branch.) -/
theorem upload_missing_detections_key (env : UploadEnv) (image_data : List Nat)
    (wh : Nat × Nat) (r : YoloResult)
    (hne : image_data ≠ []) (hdec : env.decode = some wh)
    (hy : (send_to_yolo env.primary env.yoloOutcomes).1 = some r)
    (hmiss : r.detections = none) (htr : r.truthy = true) :
    (∀ (u : String) (rest : List (String × AttemptOutcome)),
      send_to_yolo_run ((u, .httpResponse 200 (some r)) :: rest) = (some r, [u])) ∧
    (upload_photo env image_data).1.status = some "success" ∧
    (upload_photo env image_data).1.httpCode = 200 ∧
    (upload_photo env image_data).1.detection_count = some 0 ∧
    (upload_photo env image_data).1.total_detections = some 0 := by
  have hup : upload_photo env image_data = uploadDetected env image_data wh r := by
    rw [upload_photo, if_neg hne, hdec, hy]
    simp [htr]
  refine ⟨?_, ?_, ?_, ?_, ?_⟩
  · intro u rest
    simp [send_to_yolo_run, parseSuccess]
  · rw [hup]; rfl
  · rw [hup]; rfl
  · rw [hup]
    simp [uploadDetected, filter_detections, hmiss]
  · rw [hup]
    simp [uploadDetected, filter_detections, hmiss]

/-- The parsed body `{"model": ..., "time": ...}`-style object: non-empty
but with no `detections` key. -/
def wrNoKey : YoloResult := { detections := none, all_detections := none, extraKeys := 2 }

/-- Environment in which the primary endpoint answers 200 with a
non-empty body lacking the `detections` key. -/
def wenvNoKey : UploadEnv :=
  { primary := some "http://yolo-host:5001/detect", threshold := mkRat 1 2,
    decode := some (8, 8),
    yoloOutcomes := [.httpResponse 200 (some wrNoKey)], render := wrenderOk,
    emailCfg := wcfgFull, smtp := .delivered }

/-- Witness for C10's amended theorem at the concrete
non-empty-body-without-detections environment. -/
theorem upload_missing_detections_key_witness :
    (([7] : List Nat) ≠ [] ∧ wenvNoKey.decode = some (8, 8) ∧
      (send_to_yolo wenvNoKey.primary wenvNoKey.yoloOutcomes).1 = some wrNoKey ∧
      wrNoKey.detections = none ∧ wrNoKey.truthy = true) ∧
    ((∀ (u : String) (rest : List (String × AttemptOutcome)),
      send_to_yolo_run ((u, .httpResponse 200 (some wrNoKey)) :: rest) =
        (some wrNoKey, [u])) ∧
    (upload_photo wenvNoKey [7]).1.status = some "success" ∧
    (upload_photo wenvNoKey [7]).1.httpCode = 200 ∧
    (upload_photo wenvNoKey [7]).1.detection_count = some 0 ∧
    (upload_photo wenvNoKey [7]).1.total_detections = some 0) :=
  ⟨⟨by decide, rfl, rfl, rfl, by decide⟩,
   upload_missing_detections_key wenvNoKey [7] (8, 8) wrNoKey
     (by decide) rfl rfl rfl (by decide)⟩

end App
